import Mathlib

/-!
# Verification development for the municipal scraper (`src/cases/search.js`)

This file gives a shallow embedding of the case-ingestion engine:

* the narrative action parser `parseActions` (source lines 488-529),
  including a faithful embedding of its chunking regex and the three
  per-chunk matchers;
* a trace model of `getCase` (lines 160-404) and `downloadAction`
  (lines 407-485): the effectful body is rendered as the ordered list of
  observable events (marker-file writes, the issued request with its
  cache time-to-live, artifact writes, promise settlements);
* the `getCases` batch loop (lines 123-157).

Notes on the chunking regex.  The source splits the narrative with
`text.match(actionReg)` where `actionReg` is (in prose) "group 1: line
start or a date token; group 2: a greedy run of non-terminator
characters; group 3: a date token or line end", with the global,
ignore-case and multiline flags.  Because the alternation tries the
line-start anchor first, every match attempt that succeeds begins at a
line start; the greedy middle group runs to the end of the line, where
the end-of-line anchor succeeds before any backtracking is attempted,
so every match is exactly one full line (empty matches arise on empty
lines, and the engine then advances by one position).  Hence the chunk
list produced by the regex is precisely the list of lines of the text,
splitting at every line terminator.  `splitLines` below embeds that.
-/

/-- JavaScript line terminators (the characters the `m`-flag anchors and
the dot class treat as line boundaries): LF, CR, LS, PS. -/
def isLineTerm (c : Char) : Bool :=
  c = '\n' || c = '\r' || c = Char.ofNat 0x2028 || c = Char.ofNat 0x2029

/-- JavaScript whitespace as used by `String.prototype.trim` and the
regex class `\s`: ASCII blanks, NBSP, BOM, and the line terminators. -/
def isJsWs (c : Char) : Bool :=
  c = ' ' || c = '\t' || c = Char.ofNat 0x0B || c = Char.ofNat 0x0C ||
  c = Char.ofNat 0xA0 || c = Char.ofNat 0xFEFF || isLineTerm c

/-- The chunk list produced by `text.match(actionReg)` (line 490-491):
the list of lines of the text, split at every line terminator. -/
def splitLines : List Char → List (List Char)
  | [] => [[]]
  | c :: cs =>
    if isLineTerm c then [] :: splitLines cs
    else
      match splitLines cs with
      | [] => [[c]]
      | l :: ls => (c :: l) :: ls

/-- JavaScript `String.prototype.trim` on a character list. -/
def trimChars (l : List Char) : List Char :=
  ((l.dropWhile isJsWs).reverse.dropWhile isJsWs).reverse

/-- Longest digit prefix of a character list, with the remainder
(the greedy `[0-9]+`). -/
def takeDigits : List Char → List Char × List Char
  | [] => ([], [])
  | c :: cs =>
    if c.isDigit then
      let (d, r) := takeDigits cs
      (c :: d, r)
    else ([], c :: cs)

/-- Embeds `p.match(/^([0-9]+\/[0-9]+\/[0-9]+)(.*)/i)` (line 503):
if `p` begins with a date-shaped token, returns the token and the
remainder of the line. -/
def matchBeginning (p : List Char) : Option (List Char × List Char) :=
  let (d1, r1) := takeDigits p
  if d1.isEmpty then none else
  match r1 with
  | '/' :: r1x =>
    let (d2, r2) := takeDigits r1x
    if d2.isEmpty then none else
    match r2 with
    | '/' :: r2x =>
      let (d3, r3) := takeDigits r2x
      if d3.isEmpty then none else
      some (d1 ++ '/' :: d2 ++ '/' :: d3, r3)
    | _ => none
  | _ => none

/-- Case-insensitive literal prefix stripping (the `i` regex flag on an
ASCII literal). -/
def stripCI : List Char → List Char → Option (List Char)
  | [], p => some p
  | _ :: _, [] => none
  | a :: as, c :: cs => if a.toLower = c.toLower then stripCI as cs else none

/-- Strips exactly one whitespace character (the regex `\s`). -/
def stripWs1 : List Char → Option (List Char)
  | [] => none
  | c :: cs => if isJsWs c then some cs else none

/-- Strips one or more whitespace characters, greedily (the regex `\s+`). -/
def stripWsPlus : List Char → Option (List Char)
  | [] => none
  | c :: cs => if isJsWs c then some (cs.dropWhile isJsWs) else none

/-- The class `[0-9a-z]` under the `i` flag. -/
def isAlnumCI (c : Char) : Bool :=
  c.isDigit || (c.toLower ≥ 'a' && c.toLower ≤ 'z')

/-- Longest `[0-9a-z]` (case-insensitive) prefix with remainder. -/
def takeAlnum : List Char → List Char × List Char
  | [] => ([], [])
  | c :: cs =>
    if isAlnumCI c then
      let (d, r) := takeAlnum cs
      (c :: d, r)
    else ([], c :: cs)

/-- Embeds `p.match(/^this\saction\sinitiated\sby\s(.*)/i)` (line 504):
the capture is the rest of the line after the literal words, each pair
separated by exactly one whitespace character. -/
def matchInitiated (p : List Char) : Option (List Char) := do
  let r ← stripCI "this".data p
  let r ← stripWs1 r
  let r ← stripCI "action".data r
  let r ← stripWs1 r
  let r ← stripCI "initiated".data r
  let r ← stripWs1 r
  let r ← stripCI "by".data r
  let r ← stripWs1 r
  some r

/-- Embeds `p.match(/^image\s+id\s+([0-9a-z]+)/i)` (line 505): the
capture is the maximal alphanumeric run after the literals. -/
def matchImage (p : List Char) : Option (List Char) := do
  let r ← stripCI "image".data p
  let r ← stripWsPlus r
  let r ← stripCI "id".data r
  let r ← stripWsPlus r
  let (cap, _) := takeAlnum r
  if cap.isEmpty then none else some cap

/-!
## Model of the external calendar-date collaborator
-/

/-- Modelled from the spec: days per month of the external calendar
library (`moment`), §6 of the spec ("parse a `M/D/YYYY`-shaped string
into a calendar date"), with Gregorian leap years. -/
def daysInMonth (y m : Nat) : Nat :=
  if m = 2 then
    if (y % 4 = 0 && y % 100 ≠ 0) || y % 400 = 0 then 29 else 28
  else if m = 4 || m = 6 || m = 9 || m = 11 then 30 else 31

/-- Numeric value of a digit run. -/
def digitsToNat (l : List Char) : Nat :=
  l.foldl (fun n c => n * 10 + (c.toNat - '0'.toNat)) 0

/-- Modelled from the spec: `moment(tok, 'MM/DD/YYYY')` on a
slash-separated all-digit token, §6 of the spec.  Non-strict parsing
accepts unpadded month and day; out-of-range fields make the moment
invalid; a one- or two-digit year is mapped into 2000-2068 / 1969-1999
as the library does.  Returns `(month, day, year)` when valid. -/
def parseMDY (tok : List Char) : Option (Nat × Nat × Nat) :=
  let (d1, r1) := takeDigits tok
  if d1.isEmpty then none else
  match r1 with
  | '/' :: r1x =>
    let (d2, r2) := takeDigits r1x
    if d2.isEmpty then none else
    match r2 with
    | '/' :: r2x =>
      let (d3, r3) := takeDigits r2x
      if d3.isEmpty || !r3.isEmpty then none else
      let m := digitsToNat d1
      let d := digitsToNat d2
      let y0 := digitsToNat d3
      let y := if d3.length ≤ 2 then (if y0 ≤ 68 then 2000 + y0 else 1900 + y0) else y0
      if 1 ≤ m && m ≤ 12 && 1 ≤ d && d ≤ daysInMonth y m then some (m, d, y)
      else none
    | _ => none
  | _ => none

/-- Zero-pads to two digits (the `MM`/`DD` format tokens). -/
def pad2 (n : Nat) : String :=
  if n < 10 then "0" ++ toString n else toString n

/-- Zero-pads to four digits (the `YYYY` format token). -/
def pad4 (n : Nat) : String :=
  if n < 10 then "000" ++ toString n
  else if n < 100 then "00" ++ toString n
  else if n < 1000 then "0" ++ toString n
  else toString n

/-- Renders `(month, day, year)` in the `YYYY-MM-DD` format. -/
def isoDate (mdy : Nat × Nat × Nat) : String :=
  pad4 mdy.2.2 ++ "-" ++ pad2 mdy.1 ++ "-" ++ pad2 mdy.2.1

/-- Modelled from the spec: `moment(tok, 'MM/DD/YYYY').format('YYYY-MM-DD')`
(line 512 of the source).  Formatting an invalid moment yields the
library's sentinel string `"Invalid date"`. -/
def momentFormat (tok : List Char) : String :=
  match parseMDY tok with
  | some mdy => isoDate mdy
  | none => "Invalid date"

/-!
## The action record and `parseActions`
-/

/-- One action record built by the parser (lines 494-524).  JavaScript
object fields that may be absent are `Option`s; `none` is `undefined`. -/
structure ActionRecord where
  caseId : Option String := none
  date : Option String := none
  type : Option String := none
  intiated : Option String := none
  image : Option String := none
  other : Option String := none
deriving DecidableEq

/-- JavaScript truthiness of a possibly-absent string field:
`undefined` and the empty string are falsy. -/
def strTruthy : Option String → Bool
  | none => false
  | some s => !s.isEmpty

/-- The initial accumulator `let action = {}` (line 494). -/
def emptyAction : ActionRecord := {}

/-- The `parts.forEach` body (lines 496-525) after the initial
`p = p.trim()`, acting on the state (pushed records, current
accumulator). -/
def pushStepTrimmed (caseId : String) (st : List ActionRecord × ActionRecord)
    (p : List Char) : List ActionRecord × ActionRecord :=
  if p.isEmpty then st
  else
    match matchBeginning p with
    | some (tok, rest) =>
      (st.1 ++ [st.2],
       { caseId := some caseId
         date := some (momentFormat tok)
         type := some (String.mk (trimChars rest)) })
    | none =>
      match matchInitiated p with
      | some cap => (st.1, { st.2 with intiated := some (String.mk cap) })
      | none =>
        match matchImage p with
        | some cap => (st.1, { st.2 with image := some (String.mk cap) })
        | none =>
          (st.1,
           { st.2 with other := some (
               if strTruthy st.2.other then (st.2.other.getD "") ++ " | " ++ String.mk p
               else String.mk p) })

/-- One iteration of the `parts.forEach` body (lines 496-525): trim the
chunk, then dispatch. -/
def pushStep (caseId : String) (st : List ActionRecord × ActionRecord)
    (praw : List Char) : List ActionRecord × ActionRecord :=
  pushStepTrimmed caseId st (trimChars praw)

/-- The records pushed by the scan: note the source pushes the current
accumulator only when the *next* date chunk begins (line 509), so the
final accumulator is never pushed. -/
def pushedActions (text caseId : String) : List ActionRecord :=
  ((splitLines text.data).foldl (pushStep caseId) ([], emptyAction)).1

/-- `parseActions(text, caseId)` (lines 488-529): scan the chunks, then
keep only records with a truthy `date` (line 528). -/
def parseActions (text caseId : String) : List ActionRecord :=
  (pushedActions text caseId).filter (fun a => strTruthy a.date)

/-!
## Trace model of `getCase` and `downloadAction`

The effectful bodies are rendered as the ordered list of observable
events.  Two comments on fidelity:

* In the transport-error branch of `getCase` (lines 224-227) the
  callback rejects and then falls through to `response.statusCode` with
  `response` undefined, which raises a TypeError inside the callback, so
  nothing after that point runs: the trace ends at the rejection.
* Each attachment link is recorded as one `attachment` event; the body
  of the nested `downloadAction` call is modelled separately by
  `downloadActionTrace` (its failure is caught at lines 360-365, so it
  never aborts the enclosing case).
-/

/-- An observable event of a case or attachment fetch. -/
inductive Ev where
  | markerWrite (key : String) (v : Bool)
  | earlyResolve
  | requestIssued (ttl : Nat)
  | rejectTransport
  | rejectStatus (code : Nat)
  | rejectSearch (msg : String)
  | writeRawHtml
  | parsedActions (acts : List ActionRecord)
  | attachment (id : String)
  | writeCostsCsv
  | writeActionsCsv
  | writeCaseCsv
  | writeJson
  | saveActionsStore
  | saveSummaryStore
  | resolveCase
  | rejectAttachmentError
  | rejectAttachmentStatus (code : Nat)
  | writeAttachmentFile (name : String)
  | resolveAttachment
deriving DecidableEq

/-- The parts of the fetched HTML page that the code reads: the error
banner (`$('.alert-danger,.alert-block')`, line 244), the register-of-
actions narrative text (line 328), and the attachment link hrefs found
in the narrative panel (lines 341-346). -/
structure Page where
  banner : Option String
  narrative : String
  actionLinks : List String

/-- A delivered HTTP response for the case page. -/
structure Resp where
  statusCode : Nat
  page : Page

/-- A delivered HTTP response for an attachment. -/
structure AttachResp where
  statusCode : Nat

/-- Inputs of one `getCase(caseId)` call: the configured cache
time-to-live, the `--new` flag, the case id, the marker map read from
`case-downloads.json`, whether the raw HTML artifact already exists,
and the response (`none` is a transport error). -/
structure CaseArgs where
  ttlConfig : Nat
  argNew : Bool
  caseId : String
  markers0 : String → Bool
  rawExists : Bool
  resp : Option Resp

/-- The effective ttl for a case fetch (lines 176-180): zero when the
marker for the case id is still set, the configured ttl otherwise. -/
def caseTTL (args : CaseArgs) : Nat :=
  if args.markers0 args.caseId then 0 else args.ttlConfig

/-- Embeds the regex `/id=([0-9a-z-_]+)&/i` applied at one position:
the literal `id=` (case-insensitive), a maximal nonempty run of the
class, then a literal ampersand. -/
def matchIdAt (l : List Char) : Option (List Char) := do
  let r ← stripCI "id=".data l
  let (run, rest) := (r.takeWhile fun c => isAlnumCI c || c = '-' || c = '_',
                      r.dropWhile fun c => isAlnumCI c || c = '-' || c = '_')
  if run.isEmpty then none
  else
    match rest with
    | '&' :: _ => some run
    | _ => none

/-- Embeds `a.match(/id=([0-9a-z-_]+)&/i)` (line 349): the leftmost
position where `matchIdAt` succeeds, or `none` when the whole href has
no such shape. -/
def extractId : List Char → Option (List Char)
  | [] => none
  | c :: cs =>
    match matchIdAt (c :: cs) with
    | some r => some r
    | none => extractId cs

/-- The attachment-link loop of `getCase` (lines 347-367).  Returns the
events of the processed links and whether the loop crashed: the `id`
extraction dereferences the match result unchecked (line 349), so a
link without the `id=...&` shape raises a TypeError that aborts the
rest of the callback. -/
def processLinks : List String → List Ev × Bool
  | [] => ([], false)
  | a :: rest =>
    match extractId a.data with
    | none => ([], true)
    | some idRun =>
      (Ev.attachment (String.mk idRun) :: (processLinks rest).1,
       (processLinks rest).2)

/-- The truthiness test on the error banner (line 245):
`$error.length && $error.text()`. -/
def bannerTruthy (p : Page) : Bool := strTruthy p.banner

/-- The event trace of one `getCase(caseId)` call (lines 160-404). -/
def getCaseTrace (args : CaseArgs) : List Ev :=
  Ev.markerWrite args.caseId true ::
  (if args.argNew && args.rawExists then [Ev.earlyResolve]
   else
    Ev.requestIssued (caseTTL args) ::
    match args.resp with
    | none => [Ev.rejectTransport]
    | some r =>
      (if 300 ≤ r.statusCode then [Ev.rejectStatus r.statusCode] else [])
      ++ [Ev.writeRawHtml]
      ++ (if bannerTruthy r.page then
            [Ev.rejectSearch ("Error searching for " ++ args.caseId)] else [])
      ++ [Ev.parsedActions (parseActions r.page.narrative args.caseId),
          Ev.markerWrite args.caseId false]
      ++ (processLinks r.page.actionLinks).1
      ++ (if (processLinks r.page.actionLinks).2 then []
          else [Ev.writeCostsCsv, Ev.writeActionsCsv, Ev.writeCaseCsv,
                Ev.writeJson, Ev.saveActionsStore, Ev.saveSummaryStore,
                Ev.resolveCase]))

/-- Inputs of one `downloadAction` call (lines 407-485). -/
structure AttachArgs where
  ttlConfig : Nat
  caseId : String
  attId : String
  markers0 : String → Bool
  actions : List ActionRecord
  resp : Option AttachResp

/-- The marker key for an attachment (line 420): `caseId-attachmentId`. -/
def attachKey (args : AttachArgs) : String :=
  args.caseId ++ "-" ++ args.attId

/-- The effective ttl for an attachment fetch (lines 419-423). -/
def attachTTL (args : AttachArgs) : Nat :=
  if args.markers0 (attachKey args) then 0 else args.ttlConfig

/-- The output filename (lines 472-480): the matching action's date when
one is found and truthy, else the `unknown-date-` sentinel. -/
def attachmentName (args : AttachArgs) : String :=
  let found := args.actions.find? fun a =>
    a.caseId == some args.caseId && a.image == some args.attId
  let datePart :=
    match found with
    | some a =>
      match a.date with
      | some d => if d.isEmpty then "unknown-date-" else d
      | none => "unknown-date-"
    | none => "unknown-date-"
  datePart ++ "-" ++ args.caseId ++ "_" ++ args.attId ++ ".pdf"

/-- The event trace of one `downloadAction` call (lines 407-485).  Note
the order on success: the tracking update (lines 464-469) precedes the
body write (lines 471-480). -/
def downloadActionTrace (args : AttachArgs) : List Ev :=
  Ev.markerWrite (attachKey args) true ::
  Ev.requestIssued (attachTTL args) ::
  match args.resp with
  | none => [Ev.rejectAttachmentError]
  | some r =>
    if 300 ≤ r.statusCode then [Ev.rejectAttachmentStatus r.statusCode]
    else [Ev.markerWrite (attachKey args) false,
          Ev.writeAttachmentFile (attachmentName args),
          Ev.resolveAttachment]

/-- Whether an event settles the enclosing promise. -/
def isSettle : Ev → Bool
  | .earlyResolve => true
  | .rejectTransport => true
  | .rejectStatus _ => true
  | .rejectSearch _ => true
  | .resolveCase => true
  | .rejectAttachmentError => true
  | .rejectAttachmentStatus _ => true
  | .resolveAttachment => true
  | _ => false

/-- The settlement a caller of the promise observes: the first settling
event of the trace (later resolves and rejects are no-ops), or `none`
when the promise never settles. -/
def firstSettle (tr : List Ev) : Option Ev :=
  (tr.filter isSettle).head?

/-- The marker map resulting from replaying a trace's marker writes
over an initial map. -/
def markersAfter (tr : List Ev) (m : String → Bool) : String → Bool :=
  tr.foldl
    (fun m e =>
      match e with
      | Ev.markerWrite k v => fun kq => if kq = k then v else m kq
      | _ => m) m

/-!
## The `getCases` batch loop
-/

/-- How one `await getCase(id)` inside the batch loop ends: resolves,
rejects, or never settles (the malformed-link TypeError path). -/
inductive FetchOutcome where
  | ok
  | err
  | hang
deriving DecidableEq

/-- The result of the batch loop. -/
inductive BatchResult where
  | finished (fetched : List String)
  | aborted (fetched : List String) (unprocessed : List (Option String))
  | hung (fetched : List String) (unprocessed : List (Option String))
deriving DecidableEq

/-- The row loop of `getCases` (lines 144-156): rows with a missing or
empty id cell are skipped; a resolved fetch moves to the next row; a
rejected fetch is caught and the catch calls `process.exit(1)` (line
153), aborting the run with the remaining rows unprocessed. -/
def getCasesLoop (outcome : String → FetchOutcome) :
    List (Option String) → BatchResult
  | [] => .finished []
  | none :: rest => getCasesLoop outcome rest
  | some cid :: rest =>
    if cid.isEmpty then getCasesLoop outcome rest
    else
      match outcome cid with
      | .ok =>
        match getCasesLoop outcome rest with
        | .finished f => .finished (cid :: f)
        | .aborted f u => .aborted (cid :: f) u
        | .hung f u => .hung (cid :: f) u
      | .err => .aborted [] rest
      | .hang => .hung [] rest

/-- The startup configuration check (lines 66-70): a missing or empty
`SCRAPER_CASES_URL` throws before any case work starts. -/
def configCheck (url : Option String) : Except String Unit :=
  if strTruthy url then Except.ok ()
  else Except.error "Make sure the SCRAPER_CASES_URL environment variable is set."

/-!
## Helper lemmas
-/

theorem mem_of_mem_ite_nil {α : Type} {c : Prop} [Decidable c] {l : List α} {e : α}
    (h : e ∈ if c then l else []) : e ∈ l := by
  split at h
  · exact h
  · simp at h

theorem mem_of_mem_nil_ite {α : Type} {c : Prop} [Decidable c] {l : List α} {e : α}
    (h : e ∈ if c then [] else l) : e ∈ l := by
  split at h
  · simp at h
  · exact h

theorem processLinks_events (ls : List String) (e : Ev)
    (h : e ∈ (processLinks ls).1) : ∃ i, e = Ev.attachment i := by
  induction ls with
  | nil => simp [processLinks] at h
  | cons a rest ih =>
    cases hid : extractId a.data with
    | none => simp only [processLinks, hid] at h; simp at h
    | some r =>
      simp only [processLinks, hid] at h
      rcases List.mem_cons.mp h with h | h
      · exact ⟨_, h⟩
      · exact ih h

theorem getCase_requestIssued_ttl (args : CaseArgs) (t : Nat)
    (h : Ev.requestIssued t ∈ getCaseTrace args) : t = caseTTL args := by
  unfold getCaseTrace at h
  rcases List.mem_cons.mp h with h | h
  · simp at h
  · split at h
    · simp at h
    · rcases List.mem_cons.mp h with h | h
      · injection h
      · split at h
        · simp at h
        · rcases List.mem_append.mp h with h | h
          · rcases List.mem_append.mp h with h | h
            · rcases List.mem_append.mp h with h | h
              · rcases List.mem_append.mp h with h | h
                · rcases List.mem_append.mp h with h | h
                  · have := mem_of_mem_ite_nil h
                    simp at this
                  · simp at h
                · have := mem_of_mem_ite_nil h
                  simp at this
              · simp at h
            · obtain ⟨i, hi⟩ := processLinks_events _ _ h
              simp at hi
          · have := mem_of_mem_nil_ite h
            simp at this

theorem attach_requestIssued_ttl (args : AttachArgs) (t : Nat)
    (h : Ev.requestIssued t ∈ downloadActionTrace args) : t = attachTTL args := by
  unfold downloadActionTrace at h
  rcases List.mem_cons.mp h with h | h
  · simp at h
  · rcases List.mem_cons.mp h with h | h
    · injection h
    · split at h
      · simp at h
      · split at h
        · simp at h
        · simp at h

theorem splitLines_ne_nil (l : List Char) : splitLines l ≠ [] := by
  cases l with
  | nil => simp [splitLines]
  | cons c cs =>
    simp only [splitLines]
    split
    · simp
    · split <;> simp

theorem mem_splitLines_subset :
    ∀ (l piece : List Char), piece ∈ splitLines l → ∀ c ∈ piece, c ∈ l := by
  intro l
  induction l with
  | nil =>
    intro piece h c hc
    simp [splitLines] at h
    subst h
    simp at hc
  | cons a as ih =>
    intro piece h c hc
    simp only [splitLines] at h
    split at h
    · rcases List.mem_cons.mp h with h | h
      · subst h; simp at hc
      · exact List.mem_cons_of_mem a (ih piece h c hc)
    · cases hs : splitLines as with
      | nil => exact absurd hs (splitLines_ne_nil as)
      | cons hd tl =>
        rw [hs] at h
        rcases List.mem_cons.mp h with h | h
        · subst h
          rcases List.mem_cons.mp hc with hc | hc
          · rw [hc]; exact List.mem_cons_self a as
          · refine List.mem_cons_of_mem a (ih hd ?_ c hc)
            rw [hs]; exact List.mem_cons_self hd tl
        · refine List.mem_cons_of_mem a (ih piece ?_ c hc)
          rw [hs]; exact List.mem_cons_of_mem hd h

theorem dropWhile_all_nil (p : Char → Bool) :
    ∀ l : List Char, l.all p = true → l.dropWhile p = [] := by
  intro l
  induction l with
  | nil => simp
  | cons c cs ih =>
    intro h
    rw [List.all_cons, Bool.and_eq_true] at h
    rw [List.dropWhile_cons, if_pos h.1]
    exact ih h.2

theorem trimChars_all_ws (l : List Char) (h : l.all isJsWs = true) :
    trimChars l = [] := by
  unfold trimChars
  rw [dropWhile_all_nil _ _ h]
  simp

theorem pushStep_empty (cid : String) (st : List ActionRecord × ActionRecord)
    (p : List Char) (h : trimChars p = []) : pushStep cid st p = st := by
  unfold pushStep pushStepTrimmed
  simp [h]

theorem foldl_pushStep_ws (cid : String) :
    ∀ (parts : List (List Char)) (st : List ActionRecord × ActionRecord),
      (∀ p ∈ parts, trimChars p = []) →
      parts.foldl (pushStep cid) st = st := by
  intro parts
  induction parts with
  | nil => intro st _; rfl
  | cons p rest ih =>
    intro st h
    rw [List.foldl_cons, pushStep_empty cid st p (h p (List.mem_cons_self p rest))]
    exact ih st fun q hq => h q (List.mem_cons_of_mem p hq)

/-- Case analysis on one parser step: either the pushed list is
unchanged and the accumulator keeps its `caseId` and `date` fields, or
the old accumulator is pushed and the new one carries the parser's case
id and a `momentFormat`-produced date. -/
theorem pushStep_spec (cid : String) (st : List ActionRecord × ActionRecord)
    (p : List Char) :
    ((pushStep cid st p).1 = st.1 ∧ (pushStep cid st p).2.caseId = st.2.caseId ∧
      (pushStep cid st p).2.date = st.2.date)
    ∨ ((pushStep cid st p).1 = st.1 ++ [st.2] ∧
       (pushStep cid st p).2.caseId = some cid ∧
       ∃ tok, (pushStep cid st p).2.date = some (momentFormat tok)) := by
  unfold pushStep pushStepTrimmed
  split
  · exact Or.inl ⟨rfl, rfl, rfl⟩
  · split
    · next tok rest heq => exact Or.inr ⟨rfl, rfl, tok, rfl⟩
    · split
      · exact Or.inl ⟨rfl, rfl, rfl⟩
      · split
        · exact Or.inl ⟨rfl, rfl, rfl⟩
        · exact Or.inl ⟨rfl, rfl, rfl⟩

theorem foldl_caseId_inv (cid : String) :
    ∀ (parts : List (List Char)) (st : List ActionRecord × ActionRecord),
      (∀ a ∈ st.1, strTruthy a.date = true → a.caseId = some cid) →
      (strTruthy st.2.date = true → st.2.caseId = some cid) →
      ∀ a ∈ (parts.foldl (pushStep cid) st).1,
        strTruthy a.date = true → a.caseId = some cid := by
  intro parts
  induction parts with
  | nil => intro st h1 _ a ha; exact h1 a ha
  | cons p rest ih =>
    intro st h1 h2
    rw [List.foldl_cons]
    rcases pushStep_spec cid st p with ⟨hl, hc, hd⟩ | ⟨hl, hc, _, hd⟩
    · refine ih _ ?_ ?_
      · rw [hl]; exact h1
      · rw [hc, hd]; exact h2
    · refine ih _ ?_ ?_
      · rw [hl]
        intro a ha
        rcases List.mem_append.mp ha with ha | ha
        · exact h1 a ha
        · rw [List.mem_singleton.mp ha]; exact h2
      · rw [hc]; intro _; rfl

/-!
## Claim theorems
-/

/-- C1: the spec claims the narrative
`"1/2/2020 Case Filed 1/5/2020 Answer Filed Image ID ab12"` parses to
two action records.  Evaluating the code on that text instead yields no
records at all: the whole single-line text is one chunk of the scan, so
the only record ever pushed is the initial empty accumulator (which the
date filter removes), and the accumulator opened by the leading date --
which holds everything else -- is never pushed. -/
theorem c1_example_narrative_parses_to_nothing :
    parseActions "1/2/2020 Case Filed 1/5/2020 Answer Filed Image ID ab12"
      "27CR2012345" = [] := by decide

/-- C6: every record in the parser's output has a truthy (present,
non-empty) date field, and a narrative whose characters are all
whitespace -- in particular the empty narrative -- parses to the empty
list rather than an error. -/
theorem c6_date_filter_invariant :
    (∀ (text caseId : String) (a : ActionRecord),
        a ∈ parseActions text caseId → strTruthy a.date = true)
    ∧ (∀ (text caseId : String), text.data.all isJsWs = true →
        parseActions text caseId = []) := by
  constructor
  · intro text caseId a ha
    exact (List.mem_filter.mp ha).2
  · intro text caseId h
    unfold parseActions pushedActions
    rw [foldl_pushStep_ws]
    · rfl
    · intro p hp
      apply trimChars_all_ws
      rw [List.all_eq_true]
      intro c hc
      exact (List.all_eq_true.mp h) c (mem_splitLines_subset _ _ hp c hc)

/-- C6 witness: the invariant at a concrete narrative and a concrete
whitespace-only narrative. -/
theorem c6_date_filter_invariant_witness :
    strTruthy (ActionRecord.mk (some "X") (some "2020-01-02") (some "A")
        none none none).date = true
    ∧ parseActions " \t " "X" = [] :=
  ⟨c6_date_filter_invariant.1 "1/2/2020 A\n1/3/2020 B" "X" _ (by decide),
   c6_date_filter_invariant.2 " \t " "X" (by decide)⟩

/-- C7 counterexample: a chunk beginning with the date-shaped token
`13/45/2020`, which fails to parse as a calendar date, is NOT discarded
from the output: it appears with the sentinel date `"Invalid date"`,
ahead of the correctly reformatted record of the next chunk. -/
theorem c7_counterexample_invalid_date_not_discarded :
    (parseActions
        "13/45/2020 Mystery Event\n1/2/2020 Real Event\n1/3/2020 Third Event"
        "27CR2012345").map (fun a => (a.date, a.type))
      = [(some "Invalid date", some "Mystery Event"),
         (some "2020-01-02", some "Real Event")] := by decide

/-- C7 amended: a chunk beginning with a date-shaped token always
yields an accumulator whose date is the library's rendering of that
token -- the ISO `YYYY-MM-DD` string when the token parses, the
non-empty sentinel `"Invalid date"` when it does not -- and the final
filter keeps every pushed record whose date is truthy, so records with
unparseable dates are retained, not discarded. -/
theorem c7_invalid_dates_kept :
    (∀ (cid : String) (st : List ActionRecord × ActionRecord)
        (praw tok rest : List Char),
        matchBeginning (trimChars praw) = some (tok, rest) →
        (pushStep cid st praw).2.date = some (momentFormat tok))
    ∧ (∀ tok : List Char, parseMDY tok = none → momentFormat tok = "Invalid date")
    ∧ (∀ (tok : List Char) (mdy : Nat × Nat × Nat),
        parseMDY tok = some mdy → momentFormat tok = isoDate mdy)
    ∧ (∀ (text caseId : String) (a : ActionRecord),
        a ∈ pushedActions text caseId → strTruthy a.date = true →
        a ∈ parseActions text caseId) := by
  refine ⟨?_, ?_, ?_, ?_⟩
  · intro cid st praw tok rest h
    unfold pushStep pushStepTrimmed
    have hne : ¬((trimChars praw).isEmpty = true) := by
      cases hq : trimChars praw with
      | nil => rw [hq] at h; simp [matchBeginning, takeDigits] at h
      | cons c cs => simp
    rw [if_neg hne, h]
  · intro tok h; unfold momentFormat; rw [h]
  · intro tok mdy h; unfold momentFormat; rw [h]
  · intro text caseId a ha hd
    exact List.mem_filter.mpr ⟨ha, hd⟩

/-- C7 witness: the amended claim at the concrete unparseable token
`13/45/2020` and at a concrete retained record. -/
theorem c7_invalid_dates_kept_witness :
    (pushStep "27CR2012345" ([], emptyAction)
        "13/45/2020 Mystery Event".data).2.date
      = some (momentFormat "13/45/2020".data)
    ∧ momentFormat "13/45/2020".data = "Invalid date"
    ∧ momentFormat "1/2/2020".data = isoDate (1, 2, 2020)
    ∧ ActionRecord.mk (some "27CR2012345") (some "Invalid date")
        (some "Mystery Event") none none none
      ∈ parseActions "13/45/2020 Mystery Event\n1/2/2020 Real Event" "27CR2012345" :=
  ⟨c7_invalid_dates_kept.1 "27CR2012345" ([], emptyAction)
      "13/45/2020 Mystery Event".data "13/45/2020".data " Mystery Event".data
      (by decide),
   c7_invalid_dates_kept.2.1 "13/45/2020".data (by decide),
   c7_invalid_dates_kept.2.2.1 "1/2/2020".data (1, 2, 2020) (by decide),
   c7_invalid_dates_kept.2.2.2 "13/45/2020 Mystery Event\n1/2/2020 Real Event"
      "27CR2012345" _ (by decide) (by decide)⟩

/-- C10: every record in the parser's output carries the case id the
parser was called with. -/
theorem c10_caseId_field (text cid : String) (a : ActionRecord)
    (h : a ∈ parseActions text cid) : a.caseId = some cid := by
  unfold parseActions pushedActions at h
  have hm := List.mem_filter.mp h
  refine foldl_caseId_inv cid (splitLines text.data) ([], emptyAction) ?_ ?_ a hm.1 hm.2
  · intro a ha; simp at ha
  · intro hcontr; simp [emptyAction, strTruthy] at hcontr

/-- C10 witness: the invariant at a concrete narrative. -/
theorem c10_caseId_field_witness :
    (ActionRecord.mk (some "X") (some "2020-01-02") (some "A")
        none none none).caseId = some "X" :=
  c10_caseId_field "1/2/2020 A\n1/3/2020 B" "X" _ (by decide)

/-- C5: a fetch whose entity key (the case id, or `caseId-attachmentId`)
has its persisted marker set issues its request with a zero cache
time-to-live; otherwise the configured time-to-live is used. -/
theorem c5_marker_forces_zero_ttl :
    (∀ (args : CaseArgs) (t : Nat),
        Ev.requestIssued t ∈ getCaseTrace args →
        t = if args.markers0 args.caseId then 0 else args.ttlConfig)
    ∧ (∀ (args : AttachArgs) (t : Nat),
        Ev.requestIssued t ∈ downloadActionTrace args →
        t = if args.markers0 (args.caseId ++ "-" ++ args.attId) then 0
            else args.ttlConfig) := by
  constructor
  · intro args t h
    simpa [caseTTL] using getCase_requestIssued_ttl args t h
  · intro args t h
    simpa [attachTTL, attachKey] using attach_requestIssued_ttl args t h

/-- C5 witness: with the marker set, the issued ttl is zero, for both a
case fetch and an attachment fetch. -/
theorem c5_marker_forces_zero_ttl_witness :
    ((0 : Nat) = if (fun _ : String => true) "27CR2012345" then 0 else 86400000)
    ∧ ((0 : Nat) =
        if (fun _ : String => true) ("27CR2012345" ++ "-" ++ "ab12") then 0
        else 86400000) :=
  ⟨c5_marker_forces_zero_ttl.1
      ⟨86400000, false, "27CR2012345", fun _ => true, false, none⟩ 0 (by decide),
   c5_marker_forces_zero_ttl.2
      ⟨86400000, "27CR2012345", "ab12", fun _ => true, [], none⟩ 0 (by decide)⟩

/-- C9: with `--new` set and the raw HTML artifact already present,
`getCase` persists the marker as true, resolves early without issuing a
request, and never clears the marker; any later run for the same case
that does issue a request therefore uses a zero time-to-live. -/
theorem c9_new_mode_leaves_marker_set (args : CaseArgs)
    (hnew : args.argNew = true) (hraw : args.rawExists = true) :
    getCaseTrace args = [Ev.markerWrite args.caseId true, Ev.earlyResolve]
    ∧ (∀ t, Ev.requestIssued t ∉ getCaseTrace args)
    ∧ markersAfter (getCaseTrace args) args.markers0 args.caseId = true
    ∧ (∀ (args2 : CaseArgs) (t : Nat),
        args2.caseId = args.caseId →
        args2.markers0 = markersAfter (getCaseTrace args) args.markers0 →
        Ev.requestIssued t ∈ getCaseTrace args2 → t = 0) := by
  have htr : getCaseTrace args
      = [Ev.markerWrite args.caseId true, Ev.earlyResolve] := by
    unfold getCaseTrace
    rw [hnew, hraw]
    rfl
  refine ⟨htr, ?_, ?_, ?_⟩
  · intro t hmem
    rw [htr] at hmem
    simp at hmem
  · rw [htr]
    simp [markersAfter]
  · intro args2 t hcid hm hmem
    have hval := getCase_requestIssued_ttl args2 t hmem
    rw [hval]
    unfold caseTTL
    rw [hm, hcid, htr]
    simp [markersAfter]

/-- C9 witness: the early-return trace at concrete inputs. -/
theorem c9_new_mode_leaves_marker_set_witness :
    getCaseTrace ⟨86400000, true, "27CR2012345", fun _ => false, true, none⟩
      = [Ev.markerWrite "27CR2012345" true, Ev.earlyResolve] :=
  (c9_new_mode_leaves_marker_set
      ⟨86400000, true, "27CR2012345", fun _ => false, true, none⟩ rfl rfl).1

/-- C3 counterexample: on HTTP 200 with the banner `"No case found"`,
the promise does settle as a search rejection -- but the rejection
carries only the case id, not the banner text, and the raw HTML
snapshot, JSON document, CSVs and both store rows are all still
written, because the snapshot is saved before the banner check and the
rejection does not return from the callback. -/
theorem c3_counterexample_artifacts_written :
    firstSettle (getCaseTrace ⟨86400000, false, "27CR2012345", fun _ => false,
        false, some ⟨200, ⟨some "No case found", "", []⟩⟩⟩)
      = some (Ev.rejectSearch "Error searching for 27CR2012345")
    ∧ Ev.writeRawHtml ∈ getCaseTrace ⟨86400000, false, "27CR2012345",
        fun _ => false, false, some ⟨200, ⟨some "No case found", "", []⟩⟩⟩
    ∧ Ev.writeJson ∈ getCaseTrace ⟨86400000, false, "27CR2012345",
        fun _ => false, false, some ⟨200, ⟨some "No case found", "", []⟩⟩⟩
    ∧ Ev.saveActionsStore ∈ getCaseTrace ⟨86400000, false, "27CR2012345",
        fun _ => false, false, some ⟨200, ⟨some "No case found", "", []⟩⟩⟩
    ∧ Ev.saveSummaryStore ∈ getCaseTrace ⟨86400000, false, "27CR2012345",
        fun _ => false, false, some ⟨200, ⟨some "No case found", "", []⟩⟩⟩ := by
  decide

/-- C3 amended: on an HTTP-success response with a truthy error banner,
`getCase` settles as a search rejection naming the case id (distinct
from the transport and status rejections; the banner text itself is
only logged), but the raw HTML snapshot -- written before the banner
check -- and, since the rejection does not return, the JSON document,
the three CSVs and both store rows are written as well (provided no
malformed attachment link aborts the callback). -/
theorem c3_banner_rejects_but_writes (args : CaseArgs) (r : Resp)
    (hresp : args.resp = some r) (hstatus : r.statusCode < 300)
    (hbanner : bannerTruthy r.page = true)
    (hnotnew : (args.argNew && args.rawExists) = false)
    (hlinks : (processLinks r.page.actionLinks).2 = false) :
    firstSettle (getCaseTrace args)
      = some (Ev.rejectSearch ("Error searching for " ++ args.caseId))
    ∧ Ev.writeRawHtml ∈ getCaseTrace args
    ∧ Ev.writeJson ∈ getCaseTrace args
    ∧ Ev.writeCostsCsv ∈ getCaseTrace args
    ∧ Ev.writeActionsCsv ∈ getCaseTrace args
    ∧ Ev.writeCaseCsv ∈ getCaseTrace args
    ∧ Ev.saveActionsStore ∈ getCaseTrace args
    ∧ Ev.saveSummaryStore ∈ getCaseTrace args := by
  have hns : ¬(300 ≤ r.statusCode) := Nat.not_le.mpr hstatus
  have htr : getCaseTrace args =
      Ev.markerWrite args.caseId true ::
      Ev.requestIssued (caseTTL args) ::
      Ev.writeRawHtml ::
      Ev.rejectSearch ("Error searching for " ++ args.caseId) ::
      Ev.parsedActions (parseActions r.page.narrative args.caseId) ::
      Ev.markerWrite args.caseId false ::
      ((processLinks r.page.actionLinks).1 ++
        [Ev.writeCostsCsv, Ev.writeActionsCsv, Ev.writeCaseCsv, Ev.writeJson,
         Ev.saveActionsStore, Ev.saveSummaryStore, Ev.resolveCase]) := by
    simp [getCaseTrace, hresp, hnotnew, hbanner, hns, hlinks]
  rw [htr]
  refine ⟨?_, ?_, ?_, ?_, ?_, ?_, ?_, ?_⟩
  · simp [firstSettle, isSettle]
  all_goals simp [List.mem_cons, List.mem_append]

/-- C3 witness: the amended claim at a concrete banner response. -/
theorem c3_banner_rejects_but_writes_witness :
    firstSettle (getCaseTrace ⟨3600000, false, "05CV1900001", fun _ => false,
        false, some ⟨200, ⟨some "Search error", "", []⟩⟩⟩)
      = some (Ev.rejectSearch ("Error searching for " ++ "05CV1900001")) :=
  (c3_banner_rejects_but_writes
      ⟨3600000, false, "05CV1900001", fun _ => false, false,
        some ⟨200, ⟨some "Search error", "", []⟩⟩⟩
      ⟨200, ⟨some "Search error", "", []⟩⟩
      rfl (by decide) (by decide) rfl rfl).1

/-- C4 counterexample: on a successful attachment download, the marker
is persisted back to false strictly BEFORE the response body is written
to disk; and on a case fetch, the marker is persisted true before the
request is issued, and the narrative parsing happens BEFORE the marker
is set back to false (not after). -/
theorem c4_counterexample_marker_order :
    Ev.markerWrite "27CR2012345-ab12" false
      ∈ downloadActionTrace ⟨86400000, "27CR2012345", "ab12", fun _ => false,
          [], some ⟨200⟩⟩
    ∧ Ev.writeAttachmentFile "unknown-date--27CR2012345_ab12.pdf"
      ∈ downloadActionTrace ⟨86400000, "27CR2012345", "ab12", fun _ => false,
          [], some ⟨200⟩⟩
    ∧ (downloadActionTrace ⟨86400000, "27CR2012345", "ab12", fun _ => false,
          [], some ⟨200⟩⟩).indexOf (Ev.markerWrite "27CR2012345-ab12" false)
      < (downloadActionTrace ⟨86400000, "27CR2012345", "ab12", fun _ => false,
          [], some ⟨200⟩⟩).indexOf
            (Ev.writeAttachmentFile "unknown-date--27CR2012345_ab12.pdf")
    ∧ (getCaseTrace ⟨86400000, false, "27CR2012345", fun _ => false, false,
          some ⟨200, ⟨none, "", []⟩⟩⟩).indexOf (Ev.parsedActions [])
      < (getCaseTrace ⟨86400000, false, "27CR2012345", fun _ => false, false,
          some ⟨200, ⟨none, "", []⟩⟩⟩).indexOf (Ev.markerWrite "27CR2012345" false)
    ∧ (getCaseTrace ⟨86400000, false, "27CR2012345", fun _ => false, false,
          some ⟨200, ⟨none, "", []⟩⟩⟩).indexOf (Ev.markerWrite "27CR2012345" true)
      < (getCaseTrace ⟨86400000, false, "27CR2012345", fun _ => false, false,
          some ⟨200, ⟨none, "", []⟩⟩⟩).indexOf (Ev.requestIssued 86400000) := by
  decide

/-- C4 amended: the marker for a key is persisted true BEFORE the fetch
is issued; for a case fetch the raw body write precedes the clearing of
the marker, but so does the narrative parsing (the marker is cleared
after parsing, not before); and for an attachment download the marker
is cleared after a success response but BEFORE the body is written to
durable storage. -/
theorem c4_amended_marker_ordering (cargs : CaseArgs) (r : Resp)
    (aargs : AttachArgs) (ar : AttachResp)
    (hresp : cargs.resp = some r) (hstatus : r.statusCode < 300)
    (hbanner : bannerTruthy r.page = false)
    (hnotnew : (cargs.argNew && cargs.rawExists) = false)
    (haresp : aargs.resp = some ar) (hastatus : ar.statusCode < 300) :
    (∃ rest, getCaseTrace cargs =
        Ev.markerWrite cargs.caseId true ::
        Ev.requestIssued (caseTTL cargs) ::
        Ev.writeRawHtml ::
        Ev.parsedActions (parseActions r.page.narrative cargs.caseId) ::
        Ev.markerWrite cargs.caseId false :: rest)
    ∧ downloadActionTrace aargs =
        [Ev.markerWrite (attachKey aargs) true,
         Ev.requestIssued (attachTTL aargs),
         Ev.markerWrite (attachKey aargs) false,
         Ev.writeAttachmentFile (attachmentName aargs),
         Ev.resolveAttachment] := by
  constructor
  · refine ⟨(processLinks r.page.actionLinks).1 ++
      (if (processLinks r.page.actionLinks).2 then []
       else [Ev.writeCostsCsv, Ev.writeActionsCsv, Ev.writeCaseCsv, Ev.writeJson,
             Ev.saveActionsStore, Ev.saveSummaryStore, Ev.resolveCase]), ?_⟩
    have hns : ¬(300 ≤ r.statusCode) := Nat.not_le.mpr hstatus
    simp [getCaseTrace, hresp, hnotnew, hbanner, hns]
  · have hns : ¬(300 ≤ ar.statusCode) := Nat.not_le.mpr hastatus
    simp [downloadActionTrace, haresp, hns]

/-- C4 witness: the attachment ordering of the amended claim at
concrete inputs. -/
theorem c4_amended_marker_ordering_witness :
    downloadActionTrace ⟨3600000, "05CV1900001", "zz99", fun _ => false,
        [], some ⟨200⟩⟩
      = [Ev.markerWrite "05CV1900001-zz99" true,
         Ev.requestIssued 3600000,
         Ev.markerWrite "05CV1900001-zz99" false,
         Ev.writeAttachmentFile "unknown-date--05CV1900001_zz99.pdf",
         Ev.resolveAttachment] :=
  (c4_amended_marker_ordering
      ⟨3600000, false, "05CV1900001", fun _ => false, false,
        some ⟨200, ⟨none, "", []⟩⟩⟩
      ⟨200, ⟨none, "", []⟩⟩
      ⟨3600000, "05CV1900001", "zz99", fun _ => false, [], some ⟨200⟩⟩
      ⟨200⟩
      rfl (by decide) rfl rfl rfl (by decide)).2

/-- C2: the batch loop does NOT continue past a failing case id: the
catch around each `await getCase` calls `process.exit(1)` (line 153),
so with a two-row input whose first fetch rejects, the run aborts with
the second row never processed. -/
theorem c2_batch_aborts_on_first_failure :
    getCasesLoop (fun _ => FetchOutcome.err)
        [some "27CR2012345", some "27CR2012346"]
      = BatchResult.aborted [] [some "27CR2012346"] := by decide

/-- C8: an attachment link whose href lacks the `id=...&` shape is not
skipped with a warning: the unchecked dereference of the match result
(line 349) raises a TypeError that aborts the callback, so the
remaining links are never attempted, none of the per-case artifacts are
written, and the case promise never settles. -/
theorem c8_malformed_link_crashes_callback :
    getCaseTrace ⟨86400000, false, "27CR2012345", fun _ => false, false,
        some ⟨200, ⟨none, "",
          ["getfile?id=ab12&t=1", "getfile.pdf", "getfile?id=cd34&t=1"]⟩⟩⟩
      = [Ev.markerWrite "27CR2012345" true, Ev.requestIssued 86400000,
         Ev.writeRawHtml, Ev.parsedActions [],
         Ev.markerWrite "27CR2012345" false, Ev.attachment "ab12"]
    ∧ firstSettle (getCaseTrace ⟨86400000, false, "27CR2012345", fun _ => false,
        false, some ⟨200, ⟨none, "",
          ["getfile?id=ab12&t=1", "getfile.pdf", "getfile?id=cd34&t=1"]⟩⟩⟩)
      = none
    ∧ extractId "getfile.pdf".data = none := by decide
